import Mathlib

/-!
Verification development for the redwrenlib dotgesture subsystem.

The embedding follows the Python sources:
  src/redwrenlib/dotgesture/gesturefile.py        (GestureFile class)
  src/redwrenlib/dotgesture/version_reads/__init__.py  (version registry)
  src/redwrenlib/dotgesture/version_reads/_0_0_1.py    (schema v1 reader)
  src/redwrenlib/typing/gestures.py               (SensorData, GestureMatch)

HDF5 containers are modelled as finite association lists of named entries with
the fixed nesting depth the schema uses (root group, sensor groups, component
set groups).  HDF5 member names are rendered by an inductive name type: the
schema only ever uses the fixed dataset names, sensor labels, and the indexed
names of the form model_i, which appear here as HName.model i.  Python
dictionaries are insertion ordered, hence association lists; for the concrete
HDF5 files appearing below the entries are laid out in the name-sorted order
h5py iterates in.  Exceptions are explicit values of type PyExn; an operation
that Python lets an exception escape from returns the exception, while an
operation that catches it internally returns what the Python code returns.
Scalars stored in containers are modelled by exact rationals, and the
floating-point evaluator by real numbers.
-/

namespace Redwren

--------------------------------------------------------------------------------
-- HDF5 container model
--------------------------------------------------------------------------------

/-- Names of HDF5 members used by the gesture schema.  The indexed group names
of the form model_i are rendered as `HName.model i`; sensor labels at the root
are `HName.label s`. -/
inductive HName where
  | version
  | n_components
  | random_state
  | threshold
  | weights
  | means
  | covariances
  | precisions_cholesky
  | model (i : ℕ)
  | label (s : String)
deriving DecidableEq

/-- Values held by HDF5 datasets in gesture containers: integer scalars,
byte-string scalars, float scalars, and 1/2/3-dimensional float arrays.
Floats are modelled as exact rationals. -/
inductive HVal where
  | vint (n : ℤ)
  | vstr (s : String)
  | vnum (q : ℚ)
  | varr (a : List ℚ)
  | varr2 (a : List (List ℚ))
  | varr3 (a : List (List (List ℚ)))
deriving DecidableEq

/-- A component-set group (model_i): named datasets only. -/
abbrev ModelGroup := List (HName × HVal)

/-- A member of a sensor group: a parameter dataset or a component-set group. -/
inductive SensorEntry where
  | dset (v : HVal)
  | grp (g : ModelGroup)
deriving DecidableEq

abbrev SensorGroup := List (HName × SensorEntry)

/-- A member of the file root: a dataset (version; global parameters in v1
files) or a sensor group. -/
inductive RootEntry where
  | dset (v : HVal)
  | grp (g : SensorGroup)
deriving DecidableEq

abbrev HFile := List (HName × RootEntry)

/-- Lookup by name in an association list (first match). -/
def alookup {κ β : Type} [DecidableEq κ] : List (κ × β) → κ → Option β
  | [], _ => none
  | (k, v) :: t, x => if k = x then some v else alookup t x

/-- Upsert: overwrite the value in place when the key is present (as h5py
dataset assignment does), otherwise append a new entry at the end (as h5py
create_dataset / create_group do). -/
def aupsert {κ β : Type} [DecidableEq κ] : List (κ × β) → κ → β → List (κ × β)
  | [], k, v => [(k, v)]
  | (k0, v0) :: t, k, v => if k0 = k then (k, v) :: t else (k0, v0) :: aupsert t k v

--------------------------------------------------------------------------------
-- Python exceptions
--------------------------------------------------------------------------------

/-- Exceptions the embedded operations can raise.  `attributeErrorNoDecode`
is the AttributeError raised when .decode is called on a non-bytes scalar;
`valueErrorUnsupportedVersion` is the ValueError raised for an unknown
version tag (it carries the tag, as the raised message names it);
`corrupt` is the error the spec-modelled v2 reader reports, naming the
offending sensor and field. -/
inductive PyExn where
  | attributeErrorNoDecode
  | valueErrorUnsupportedVersion (tag : String)
  | keyErrorName (k : HName)
  | keyErrorLabel (s : String)
  | assertionError (msg : String)
  | unboundLocalError
  | groupExists (i : ℕ)
  | typeErr
  | corrupt (sensor : String) (field : HName)
deriving DecidableEq

--------------------------------------------------------------------------------
-- In-memory data model (typing/gestures.py)
--------------------------------------------------------------------------------

/-- Parameter arrays of one fitted mixture, as held by a GaussianMixture
object in the store (fields weights_, means_, covariances_,
precisions_cholesky_, n_components).  The scalar type is a parameter so the
container codec can use exact rationals and the evaluator real numbers. -/
structure GaussianComponentSet (α : Type) where
  weights : List α
  means : List (List α)
  covariances : List (List (List α))
  precisions_cholesky : List (List (List α))
  n_components : ℤ
deriving DecidableEq

/-- Modelled from the spec: the constants of redwrenlib/utils/defaults.py are
not under src (only their import site is); the spec names the placeholder
defaults n_components=42, random_state=2, threshold=-10.5. -/
def MODEL_THRESHOLD : ℚ := -21/2

/-- Modelled from the spec: default random_state (see MODEL_THRESHOLD). -/
def MODEL_RANDOM_STATE : ℤ := 2

/-- Modelled from the spec: default n_components (see MODEL_THRESHOLD). -/
def MODEL_N_COMPONENTS : ℤ := 42

/-- Per-sensor record of the in-memory store (class SensorData of
typing/gestures.py), viewed as a plain record.  The Python class keeps these
as class attributes; the aliasing consequences of the shared class-level
models list are modelled separately by `PyStore`. -/
structure SensorData (α : Type) where
  models : List (GaussianComponentSet α)
  threshold : α
  random_state : ℤ
  n_components : ℤ
deriving DecidableEq

/-- The dictionary _gesture_data: sensor label to SensorData, insertion
ordered. -/
abbrev DataDict (α : Type) := List (String × SensorData α)

/-- Immutable result record of the gesture checker (typing/gestures.py). -/
structure GestureMatch where
  value : ℝ
  status : Bool

/-- Record built by the v1 reader from the global datasets of a v1 file
(class ModelParameters, imported by _0_0_1.py; the raw dataset values are
stored as read). -/
structure ModelParameters where
  threshold : HVal
  n_components : HVal
  random_state : HVal
deriving DecidableEq

/-- A GaussianMixture instance as rebuilt by the v1 reader: the five raw
dataset values are assigned to its attributes without any shape checking. -/
structure RawComponentSet where
  weights : HVal
  means : HVal
  covariances : HVal
  precisions_cholesky : HVal
  n_components : HVal
deriving DecidableEq

--------------------------------------------------------------------------------
-- Version registry (version_reads/__init__.py)
--------------------------------------------------------------------------------

/-- GESTURE_VERSION from version_reads/__init__.py: the integer 2. -/
def GESTURE_VERSION : ℤ := 2

/-- Tags of the version_readers dictionary: exact keys, no ranges. -/
def version_reader_tags : List String := ["0.0.1", "2"]

--------------------------------------------------------------------------------
-- GestureFile.create and GestureFile.write (gesturefile.py)
--------------------------------------------------------------------------------

namespace GestureFile

/-- The file produced by GestureFile.create: a fresh container holding only
the version dataset, stamped with GESTURE_VERSION (an integer scalar, since
GESTURE_VERSION is an int). -/
def create : HFile := [(.version, .dset (.vint GESTURE_VERSION))]

/-- Serialization of one component set: the five datasets written by
GestureFile.write for each model. -/
def encodeModel (d : GaussianComponentSet ℚ) : ModelGroup :=
  [(.weights, .varr d.weights),
   (.means, .varr2 d.means),
   (.covariances, .varr3 d.covariances),
   (.precisions_cholesky, .varr3 d.precisions_cholesky),
   (.n_components, .vint d.n_components)]

/-- The three _user_variables upserts of GestureFile.write, in source order:
n_components, random_state, threshold. -/
def upsertParams (g : SensorGroup) (sd : SensorData ℚ) : SensorGroup :=
  aupsert (aupsert (aupsert g
    .n_components (.dset (.vint sd.n_components)))
    .random_state (.dset (.vint sd.random_state)))
    .threshold (.dset (.vnum sd.threshold))

/-- The model loop of GestureFile.write: creates group model_(start+i) for the
i-th model.  create_group raises when the name already exists. -/
def addModels : SensorGroup → ℕ → List (GaussianComponentSet ℚ) →
    Except PyExn SensorGroup
  | g, _, [] => .ok g
  | g, i, d :: rest =>
    if (alookup g (.model i)).isSome then .error (.groupExists i)
    else addModels (g ++ [(.model i, .grp (encodeModel d))]) (i + 1) rest

/-- One iteration of the sensor loop of GestureFile.write: when the label is
already a group, the start index is the current member count of that group
(taken before the parameter upserts); otherwise a fresh group is created and
the start index is 0. -/
def writeSensor (f : HFile) (lbl : String) (sd : SensorData ℚ) :
    Except PyExn HFile :=
  match alookup f (.label lbl) with
  | some (.grp g) =>
    (addModels (upsertParams g sd) g.length sd.models).map
      fun g2 => aupsert f (.label lbl) (.grp g2)
  | some (.dset _) => .error .typeErr
  | none =>
    (addModels (upsertParams [] sd) 0 sd.models).map
      fun g2 => aupsert f (.label lbl) (.grp g2)

/-- The sensor loop of GestureFile.write over the store.  An exception makes
write return False; the partially flushed HDF5 state of that error path is
not modelled further, no claim reaches it. -/
def write_go : DataDict ℚ → HFile → Bool × HFile
  | [], f => (true, f)
  | (lbl, sd) :: rest, f =>
    match writeSensor f lbl sd with
    | .ok f2 => write_go rest f2
    | .error _ => (false, f)

/-- GestureFile.write: returns False untouched on an empty store; override
true truncates the file (mode w, so the version dataset is not rewritten),
override false appends to the existing file (mode a). -/
def write (store : DataDict ℚ) (override : Bool) (f : HFile) : Bool × HFile :=
  match store with
  | [] => (false, f)
  | s :: rest => write_go (s :: rest) (if override then [] else f)

end GestureFile

/-- Indexed serialization of a model list starting at a given index: the
groups model_i, model_(i+1), ... that a successful addModels appends. -/
def idxModels : ℕ → List (GaussianComponentSet ℚ) → SensorGroup
  | _, [] => []
  | i, d :: rest => (.model i, .grp (GestureFile.encodeModel d)) :: idxModels (i + 1) rest

/-- The three parameter datasets of a sensor group, in the order
GestureFile.write creates them in a fresh group. -/
def paramsOf (sd : SensorData ℚ) : SensorGroup :=
  [(.n_components, .dset (.vint sd.n_components)),
   (.random_state, .dset (.vint sd.random_state)),
   (.threshold, .dset (.vnum sd.threshold))]

--------------------------------------------------------------------------------
-- Schema v1 reader (version_reads/_0_0_1.py)
--------------------------------------------------------------------------------

namespace V1

/-- Subscripting a root member and taking its raw value, as f[name][()] does:
a missing name raises KeyError, subscripting a group with () raises. -/
def readRootVal (f : HFile) (k : HName) : Except PyExn HVal :=
  match alookup f k with
  | some (.dset v) => .ok v
  | some (.grp _) => .error .typeErr
  | none => .error (.keyErrorName k)

/-- The ModelParameters construction of read_file, reading the three global
datasets in source order: threshold, n_components, random_state. -/
def readParams (f : HFile) : Except PyExn ModelParameters := do
  let th ← readRootVal f .threshold
  let n ← readRootVal f .n_components
  let r ← readRootVal f .random_state
  .ok ⟨th, n, r⟩

/-- Reading one dataset of a component-set group; a missing name raises
KeyError. -/
def modelItem (g : ModelGroup) (k : HName) : Except PyExn HVal :=
  match alookup g k with
  | some v => .ok v
  | none => .error (.keyErrorName k)

/-- Decoding one member of a sensor group into a GaussianMixture instance:
the five raw values are read and assigned; subscripting a dataset member
raises. -/
def decodeRawModel : SensorEntry → Except PyExn RawComponentSet
  | .dset _ => .error .typeErr
  | .grp g => do
    let w ← modelItem g .weights
    let m ← modelItem g .means
    let c ← modelItem g .covariances
    let p ← modelItem g .precisions_cholesky
    let n ← modelItem g .n_components
    .ok ⟨w, m, c, p, n⟩

/-- The inner loop of read_file over one sensor group.  The Boolean records
whether an exception occurred (it is caught by the try of read_file, which
then returns the partially built dictionary). -/
def scanGroup : List (HName × SensorEntry) → List RawComponentSet →
    Bool × List RawComponentSet
  | [], acc => (false, acc)
  | (_, e) :: rest, acc =>
    match decodeRawModel e with
    | .ok r => scanGroup rest (acc ++ [r])
    | .error _ => (true, acc)

/-- The outer loop of read_file over every root member (h5py iterates them in
name order; the concrete files below are laid out accordingly).  Every name,
dataset or group, first receives an empty entry in the dictionary; datasets
are then skipped by the isinstance check.  An exception inside a group aborts
the whole loop, leaving the entries decoded so far. -/
def scan : List (HName × RootEntry) → List (HName × List RawComponentSet) →
    List (HName × List RawComponentSet)
  | [], acc => acc
  | (name, entry) :: rest, acc =>
    let acc1 := aupsert acc name []
    match entry with
    | .dset _ => scan rest acc1
    | .grp g =>
      match scanGroup g [] with
      | (false, ms) => scan rest (aupsert acc1 name ms)
      | (true, ms) => aupsert acc1 name ms

/-- read_file of _0_0_1.py.  When reading the three global parameters fails,
the exception is caught but the final return statement then raises
UnboundLocalError, since model_parameters was never bound; that exception
escapes to the caller.  Any exception inside the sensor loop is caught and
the partially built dictionary is returned together with the parameters, so
the caller sees a normal return. -/
def read_file (f : HFile) :
    Except PyExn (ModelParameters × List (HName × List RawComponentSet)) :=
  match readParams f with
  | .error _ => .error .unboundLocalError
  | .ok p => .ok (p, scan f [])

end V1

--------------------------------------------------------------------------------
-- Schema v2 reader (spec-modelled)
--------------------------------------------------------------------------------

namespace V2

/-- Modelled from the spec: version_reads/v2.py is imported by
version_reads/__init__.py but is not under src.  Decodes one component-set
sub-record: the five named fields, typed, with the dimension check between
the weights length and n_components; a missing or ill-typed field or a
mismatch is a corrupt-container error naming the sensor and field. -/
def decodeSet (s : String) (mg : ModelGroup) :
    Except PyExn (GaussianComponentSet ℚ) := do
  let w ← match alookup mg .weights with
    | some (.varr a) => Except.ok a
    | _ => Except.error (.corrupt s .weights)
  let m ← match alookup mg .means with
    | some (.varr2 a) => Except.ok a
    | _ => Except.error (.corrupt s .means)
  let c ← match alookup mg .covariances with
    | some (.varr3 a) => Except.ok a
    | _ => Except.error (.corrupt s .covariances)
  let p ← match alookup mg .precisions_cholesky with
    | some (.varr3 a) => Except.ok a
    | _ => Except.error (.corrupt s .precisions_cholesky)
  let n ← match alookup mg .n_components with
    | some (.vint k) => Except.ok k
    | _ => Except.error (.corrupt s .n_components)
  if (w.length : ℤ) = n then .ok ⟨w, m, c, p, n⟩
  else .error (.corrupt s .weights)

/-- Modelled from the spec: the ordered component-set sub-records of one
sensor group (the model_i members, in stored order); parameter datasets are
read separately. -/
def decodeModels (s : String) : List (HName × SensorEntry) →
    Except PyExn (List (GaussianComponentSet ℚ))
  | [] => .ok []
  | (.model _, .grp mg) :: rest => do
    let d ← decodeSet s mg
    let r ← decodeModels s rest
    .ok (d :: r)
  | (.model i, .dset _) :: _ => .error (.corrupt s (.model i))
  | _ :: rest => decodeModels s rest

/-- Modelled from the spec: one sensor group under v2 owns its three scalar
parameters; a missing or ill-typed one is a corrupt-container error naming
the sensor and field. -/
def decodeSensor (s : String) (g : SensorGroup) :
    Except PyExn (SensorData ℚ) := do
  let n ← match alookup g .n_components with
    | some (.dset (.vint k)) => Except.ok k
    | _ => Except.error (.corrupt s .n_components)
  let r ← match alookup g .random_state with
    | some (.dset (.vint k)) => Except.ok k
    | _ => Except.error (.corrupt s .random_state)
  let th ← match alookup g .threshold with
    | some (.dset (.vnum q)) => Except.ok q
    | _ => Except.error (.corrupt s .threshold)
  let ms ← decodeModels s g
  .ok ⟨ms, th, r, n⟩

/-- Modelled from the spec: the v2 decode over the whole file, all or
nothing; the version dataset is skipped, every labelled group is one sensor,
anything else at the root is corrupt. -/
def read_file : HFile → Except PyExn (DataDict ℚ)
  | [] => .ok []
  | (.version, _) :: rest => read_file rest
  | (.label s, .grp g) :: rest => do
    let sd ← decodeSensor s g
    let d ← read_file rest
    .ok ((s, sd) :: d)
  | (k, _) :: _ => .error (.corrupt "" k)

end V2

--------------------------------------------------------------------------------
-- GestureFile.read (gesturefile.py)
--------------------------------------------------------------------------------

/-- What _gesture_data holds.  A successful v2 read stores a dictionary of
SensorData; a v1 read stores what read_file of _0_0_1.py returns, namely the
pair of ModelParameters and the raw dictionary (gesturefile.py assigns that
tuple to _gesture_data unchanged). -/
inductive GData where
  | dict (d : DataDict ℚ)
  | v1pair (p : ModelParameters) (d : List (HName × List RawComponentSet))
deriving DecidableEq

namespace GestureFile

/-- GestureFile.read: reads the version dataset first, calls .decode on its
raw value (an AttributeError when it is not a byte string, in particular for
the integer GESTURE_VERSION that create stamps), dispatches on the registry
by exact tag, raising ValueError naming the tag when absent; any exception is
caught, read then returns False and the store keeps its previous value.  The
result pairs the escaped exception (none on success, Python True) with the
resulting store. -/
def read (f : HFile) (cur : GData) : Option PyExn × GData :=
  match alookup f .version with
  | some (.dset (.vstr s)) =>
    if s ∈ version_reader_tags then
      if s = "0.0.1" then
        match V1.read_file f with
        | .ok (p, d) => (none, .v1pair p d)
        | .error e => (some e, cur)
      else
        match V2.read_file f with
        | .ok d => (none, .dict d)
        | .error e => (some e, cur)
    else (some (.valueErrorUnsupportedVersion s), cur)
  | some (.dset _) => (some .attributeErrorNoDecode, cur)
  | some (.grp _) => (some .typeErr, cur)
  | none => (some (.keyErrorName .version), cur)

end GestureFile

--------------------------------------------------------------------------------
-- GestureFile.append_reading (gesturefile.py) with the class-attribute list
--------------------------------------------------------------------------------

/-- The aliasing-relevant state of a GestureFile instance.  In
typing/gestures.py, SensorData declares models as a class attribute bound to
one list object (the literal [] is evaluated once).  append_reading executes
an in-place += on entry.models: the attribute lookup finds that one class
list, list.__iadd__ extends it in place and returns the same object, which
the assignment then also binds as the instance attribute.  Hence the models
attribute of every SensorData ever touched by append_reading is that single
shared list, modelled here by the field sharedModels; labels records the
keys of _gesture_data in insertion order. -/
structure PyStore where
  sharedModels : List (GaussianComponentSet ℚ)
  labels : List String
deriving DecidableEq

namespace GestureFile

/-- GestureFile.append_reading: creates the sensor entry when the label is
new (its models attribute is the shared class list) and extends
entry.models in place, which extends the one shared list. -/
def append_reading (st : PyStore) (lbl : String) (model : List (GaussianComponentSet ℚ)) :
    Bool × PyStore :=
  let labels2 := if lbl ∈ st.labels then st.labels else st.labels ++ [lbl]
  (true, ⟨st.sharedModels ++ model, labels2⟩)

/-- The models attribute observed for a label present in the store: always
the shared class-level list. -/
def modelsOf (st : PyStore) (_lbl : String) : List (GaussianComponentSet ℚ) :=
  st.sharedModels

--------------------------------------------------------------------------------
-- GestureFile.get_parameters / set_parameters (gesturefile.py)
--------------------------------------------------------------------------------

/-- GestureFile.get_parameters: a plain dictionary lookup; a missing label
raises KeyError out of the method.  Returns the triple
(n_components, random_state, threshold). -/
def get_parameters (store : DataDict ℚ) (lbl : String) :
    Except PyExn (ℤ × ℤ × ℚ) :=
  match alookup store lbl with
  | some sd => .ok (sd.n_components, sd.random_state, sd.threshold)
  | none => .error (.keyErrorLabel lbl)

/-- The threshold step of set_parameters: no assertion, assignment raises
KeyError when the label is absent. -/
def setThreshold (store : DataDict ℚ) (lbl : String) (threshold : Option ℚ) :
    Option PyExn × DataDict ℚ :=
  match threshold with
  | none => (none, store)
  | some t =>
    match alookup store lbl with
    | some sd => (none, aupsert store lbl { sd with threshold := t })
    | none => (some (.keyErrorLabel lbl), store)

/-- The random_state step of set_parameters: the assertion random_state > 1
runs before the dictionary lookup and assignment. -/
def setRandomState (store : DataDict ℚ) (lbl : String)
    (random_state : Option ℤ) (threshold : Option ℚ) :
    Option PyExn × DataDict ℚ :=
  match random_state with
  | none => setThreshold store lbl threshold
  | some r =>
    if 1 < r then
      match alookup store lbl with
      | some sd => setThreshold (aupsert store lbl { sd with random_state := r }) lbl threshold
      | none => (some (.keyErrorLabel lbl), store)
    else (some (.assertionError "random_state should be above 1"), store)

/-- GestureFile.set_parameters: the three optional fields are handled in
source order, each validated by its assert immediately before its own
assignment; an exception leaves the assignments already performed in place
and aborts the rest.  The result pairs the escaped exception (none when the
call returns normally) with the resulting store. -/
def set_parameters (store : DataDict ℚ) (lbl : String)
    (n_components : Option ℤ) (random_state : Option ℤ) (threshold : Option ℚ) :
    Option PyExn × DataDict ℚ :=
  match n_components with
  | none => setRandomState store lbl random_state threshold
  | some n =>
    if 0 < n then
      match alookup store lbl with
      | some sd =>
        setRandomState (aupsert store lbl { sd with n_components := n }) lbl random_state threshold
      | none => (some (.keyErrorLabel lbl), store)
    else (some (.assertionError "n_components should be above 0"), store)

end GestureFile

--------------------------------------------------------------------------------
-- GestureFile.is_gesture (gesturefile.py) and GaussianMixture.score
--------------------------------------------------------------------------------

/-- Log-sum-exp over a list, as scipy logsumexp computes it; over the real
numbers the max-subtraction trick is exactly log of the sum of
exponentials. -/
noncomputable def logsumexp (l : List ℝ) : ℝ :=
  Real.log ((l.map Real.exp).sum)

/-- Log density of one sample under component k of a mixture, as sklearn
computes it from the precision Cholesky factor for two features (is_gesture
always builds two-column sample matrices of timestamp and reading): with
centered sample c = x - mean and factor L, the transformed vector is
y_j = sum_d c_d L[d][j], and the log density is
-(1/2)(2 log(2 pi) + |y|^2) + log L[0][0] + log L[1][1]. -/
noncomputable def logGaussianProb (m : GaussianComponentSet ℝ) (k : ℕ) (x : ℝ × ℝ) : ℝ :=
  let mu := m.means.getD k []
  let L := m.precisions_cholesky.getD k []
  let row0 := L.getD 0 []
  let row1 := L.getD 1 []
  let c0 := x.1 - mu.getD 0 0
  let c1 := x.2 - mu.getD 1 0
  let y0 := c0 * row0.getD 0 0 + c1 * row1.getD 0 0
  let y1 := c0 * row0.getD 1 0 + c1 * row1.getD 1 0
  (-(1/2) * (2 * Real.log (2 * Real.pi) + (y0 ^ 2 + y1 ^ 2)))
    + (Real.log (row0.getD 0 0) + Real.log (row1.getD 1 0))

/-- Mixture log likelihood of one sample: log-sum-exp over the components of
log weight plus component log density. -/
noncomputable def sampleLogLik (m : GaussianComponentSet ℝ) (x : ℝ × ℝ) : ℝ :=
  logsumexp ((List.range m.weights.length).map
    fun k => Real.log (m.weights.getD k 0) + logGaussianProb m k x)

/-- GaussianMixture.score: the arithmetic mean over the samples of the
mixture log likelihood. -/
noncomputable def gmmScore (m : GaussianComponentSet ℝ) (X : List (ℝ × ℝ)) : ℝ :=
  (X.map (sampleLogLik m)).sum / (X.length : ℝ)

/-- Python max over a list of floats; max of an empty list raises in Python,
here it returns 0, and every theorem below only reaches it through nonempty
model lists. -/
noncomputable def pymax (l : List ℝ) : ℝ :=
  l.foldl max (l.headD 0)

/-- The sensor loop of GestureFile.is_gesture: sensors are taken in readings
order; a length mismatch or an unknown sensor returns False together with
the results accumulated so far; otherwise the best model score is compared
against the sensor threshold and the loop continues.  At the end the overall
status is the conjunction of the per-sensor statuses. -/
noncomputable def igo (store : DataDict ℝ) (timestamps : List ℝ) :
    List (String × List ℝ) → List (String × GestureMatch) →
    Bool × List (String × GestureMatch)
  | [], acc => (acc.all fun p => p.2.status, acc)
  | (sensor, vals) :: rest, acc =>
    if timestamps.length ≠ vals.length then (false, acc)
    else
      match alookup store sensor with
      | none => (false, acc)
      | some sd =>
        let X := timestamps.zip vals
        let best := pymax (sd.models.map fun m => gmmScore m X)
        igo store timestamps rest
          (acc ++ [(sensor, ⟨best, decide (best > sd.threshold)⟩)])

namespace GestureFile

/-- GestureFile.is_gesture: an empty store returns (False, empty dictionary);
otherwise the sensor loop runs over the readings dictionary. -/
noncomputable def is_gesture (store : DataDict ℝ) (timestamps : List ℝ)
    (readings : List (String × List ℝ)) : Bool × List (String × GestureMatch) :=
  match store with
  | [] => (false, [])
  | _ :: _ => igo store timestamps readings []

end GestureFile

--------------------------------------------------------------------------------
-- Concrete inputs used by the theorems
--------------------------------------------------------------------------------

/-- One component set over rationals: one component, weight one, mean at the
origin, identity covariance and identity precision Cholesky. -/
def gQ : GaussianComponentSet ℚ :=
  { weights := [1], means := [[0, 0]],
    covariances := [[[1, 0], [0, 1]]],
    precisions_cholesky := [[[1, 0], [0, 1]]],
    n_components := 1 }

/-- A second, different component set over rationals (two components). -/
def gQb : GaussianComponentSet ℚ :=
  { weights := [1/2, 1/2], means := [[0, 0], [1, 1]],
    covariances := [[[1, 0], [0, 1]], [[1, 0], [0, 1]]],
    precisions_cholesky := [[[1, 0], [0, 1]], [[1, 0], [0, 1]]],
    n_components := 2 }

/-- A sensor record over rationals holding gQ, threshold -5. -/
def sdQ : SensorData ℚ :=
  { models := [gQ], threshold := -5, random_state := 2, n_components := 1 }

/-- A sensor record over rationals holding gQb. -/
def sdQb : SensorData ℚ :=
  { models := [gQb], threshold := -5, random_state := 2, n_components := 2 }

/-- The component set of the concrete scenario of the spec, over the reals:
one component, weight one, mean at the origin, identity precision
Cholesky. -/
noncomputable def gR : GaussianComponentSet ℝ :=
  { weights := [1], means := [[0, 0]],
    covariances := [[[1, 0], [0, 1]]],
    precisions_cholesky := [[[1, 0], [0, 1]]],
    n_components := 1 }

/-- The sensor record of the concrete scenario: one component set, threshold
-5. -/
noncomputable def sdR : SensorData ℝ :=
  { models := [gR], threshold := -5, random_state := 2, n_components := 1 }

/-- The store of the concrete scenario: one sensor named accel. -/
noncomputable def storeAccel : DataDict ℝ := [("accel", sdR)]

/-- A two-sensor store over the reals. -/
noncomputable def storeAB : DataDict ℝ := [("a", sdR), ("b", sdR)]

/-- A corrupt v1 container: version tag 0.0.1 (a byte string, so decode
succeeds), the three global parameter datasets, a sensor s1 whose single
component-set group is complete, and a sensor s2 whose single component-set
group is missing its weights dataset.  Entries are laid out in the name
order h5py iterates in. -/
def corruptV1 : HFile :=
  [(.n_components, .dset (.vint 1)),
   (.random_state, .dset (.vint 2)),
   (.label "s1", .grp [(.model 0, .grp (GestureFile.encodeModel gQ))]),
   (.label "s2", .grp [(.model 0, .grp
     [(.means, .varr2 [[0, 0]]),
      (.covariances, .varr3 [[[1, 0], [0, 1]]]),
      (.precisions_cholesky, .varr3 [[[1, 0], [0, 1]]]),
      (.n_components, .vint 1)])]),
   (.threshold, .dset (.vnum (-5))),
   (.version, .dset (.vstr "0.0.1"))]

/-- The raw component set the v1 reader rebuilds from the complete group of
sensor s1 of corruptV1. -/
def rawQ : RawComponentSet :=
  { weights := .varr [1], means := .varr2 [[0, 0]],
    covariances := .varr3 [[[1, 0], [0, 1]]],
    precisions_cholesky := .varr3 [[[1, 0], [0, 1]]],
    n_components := .vint 1 }

/-- The file after writing sdQ under sensor s to a fresh container. -/
def C5file1 : HFile := (GestureFile.write [("s", sdQ)] false GestureFile.create).2

/-- The file after then writing sdQb under the same sensor with override
false. -/
def C5file2 : HFile := (GestureFile.write [("s", sdQb)] false C5file1).2

/-- The sensor group of s in C5file2. -/
def C5group : SensorGroup :=
  match alookup C5file2 (.label "s") with
  | some (.grp g) => g
  | _ => []

--------------------------------------------------------------------------------
-- Helper lemmas
--------------------------------------------------------------------------------

theorem alookup_append {κ β : Type} [DecidableEq κ] (l1 l2 : List (κ × β)) (k : κ) :
    alookup (l1 ++ l2) k =
      match alookup l1 k with
      | some v => some v
      | none => alookup l2 k := by
  induction l1 with
  | nil => simp [alookup]
  | cons p t ih =>
    obtain ⟨k0, v0⟩ := p
    by_cases h : k0 = k <;> simp [alookup, h, ih]

theorem idxModels_length (ms : List (GaussianComponentSet ℚ)) :
    ∀ i, (idxModels i ms).length = ms.length := by
  induction ms with
  | nil => intro i; simp [idxModels]
  | cons d rest ih => intro i; simp [idxModels, ih]

theorem alookup_idxModels_ge (ms : List (GaussianComponentSet ℚ)) :
    ∀ i j, i + ms.length ≤ j → alookup (idxModels i ms) (.model j) = none := by
  induction ms with
  | nil => intro i j _; simp [idxModels, alookup]
  | cons d rest ih =>
    intro i j hj
    simp only [List.length_cons] at hj
    have hij : i ≠ j := by omega
    simp only [idxModels, alookup]
    rw [if_neg (by simp [hij])]
    exact ih (i + 1) j (by omega)

theorem alookup_paramsOf_model (sd : SensorData ℚ) (j : ℕ) :
    alookup (paramsOf sd) (.model j) = none := by
  simp [paramsOf, alookup]

theorem upsertParams_nil (sd : SensorData ℚ) :
    GestureFile.upsertParams [] sd = paramsOf sd := rfl

theorem upsertParams_params (sd1 sd2 : SensorData ℚ) (rest : SensorGroup) :
    GestureFile.upsertParams (paramsOf sd1 ++ rest) sd2 = paramsOf sd2 ++ rest := by
  simp [GestureFile.upsertParams, paramsOf, aupsert]

theorem addModels_ok (ms : List (GaussianComponentSet ℚ)) :
    ∀ (g : SensorGroup) (i : ℕ),
      (∀ j, i ≤ j → alookup g (.model j) = none) →
      GestureFile.addModels g i ms = .ok (g ++ idxModels i ms) := by
  induction ms with
  | nil => intro g i _; simp [GestureFile.addModels, idxModels]
  | cons d rest ih =>
    intro g i h
    have h0 : alookup g (.model i) = none := h i le_rfl
    simp only [GestureFile.addModels, idxModels, h0, Option.isSome_none,
      Bool.false_eq_true, if_false]
    have h2 : ∀ j, i + 1 ≤ j →
        alookup (g ++ [(HName.model i, SensorEntry.grp (GestureFile.encodeModel d))])
          (.model j) = none := by
      intro j hj
      rw [alookup_append, h j (by omega)]
      simp [alookup, show i ≠ j by omega]
    have h3 := ih (g ++ [(.model i, .grp (GestureFile.encodeModel d))]) (i + 1) h2
    simp only [List.append_assoc, List.singleton_append] at h3
    exact h3

--------------------------------------------------------------------------------
-- Claim theorems
--------------------------------------------------------------------------------

/-- C1: the write-then-read round trip is broken in the code.  Committing a
valid non-empty store to a container created by create succeeds, but reading
the resulting file back always fails: create stamps the version as the
integer GESTURE_VERSION while read calls .decode on the raw value, which
raises AttributeError for an integer scalar, so a fresh reader is left with
its empty store instead of an equivalent one. -/
theorem c1_roundtrip_broken :
    (GestureFile.write [("accel", sdQ)] false GestureFile.create).1 = true ∧
    GestureFile.read (GestureFile.write [("accel", sdQ)] false GestureFile.create).2
        (.dict []) = (some .attributeErrorNoDecode, .dict []) := by
  decide

/-- C3: the component-set sequences of distinct sensor entries are not owned
exclusively.  SensorData.models is a class-level list shared by every entry,
and the in-place += of append_reading extends that one list: after appending
gQ under sensor a and then gQb under sensor b, the models observed for a are
[gQ, gQb], not [gQ]. -/
theorem c3_models_shared :
    GestureFile.modelsOf
        (GestureFile.append_reading
          (GestureFile.append_reading ⟨[], []⟩ "a" [gQ]).2 "b" [gQb]).2 "a"
      = [gQ, gQb] ∧
    GestureFile.modelsOf
        (GestureFile.append_reading
          (GestureFile.append_reading ⟨[], []⟩ "a" [gQ]).2 "b" [gQb]).2 "a"
      ≠ [gQ] := by
  refine ⟨rfl, ?_⟩
  intro hcontra
  have h2 : ([gQ, gQb] : List (GaussianComponentSet ℚ)) = [gQ] := hcontra
  simp at h2

/-- C4 counterexample: calling set_parameters with a valid n_components and
an invalid random_state raises the random_state assertion but leaves the
store mutated: n_components has already been overwritten, refuting the claim
that a violation performs no mutation. -/
theorem c4_counterexample :
    (GestureFile.set_parameters [("a", sdQ)] "a" (some 5) (some 0) none).1
      = some (.assertionError "random_state should be above 1") ∧
    (GestureFile.set_parameters [("a", sdQ)] "a" (some 5) (some 0) none).2
      ≠ [("a", sdQ)] := by
  decide

/-- C4 amended: set_parameters validates each supplied value immediately
before its own assignment, in source order; for any store entry, a valid
n_components followed by an invalid random_state fails with the random_state
assertion, with n_components already updated to the new value and the other
fields untouched. -/
theorem c4_partial_update (store : DataDict ℚ) (lbl : String) (sd : SensorData ℚ)
    (n r : ℤ) (th : Option ℚ)
    (hfound : alookup store lbl = some sd) (hn : 0 < n) (hr : r ≤ 1) :
    GestureFile.set_parameters store lbl (some n) (some r) th =
      (some (.assertionError "random_state should be above 1"),
       aupsert store lbl { sd with n_components := n }) := by
  simp [GestureFile.set_parameters, GestureFile.setRandomState, hfound, hn,
    show ¬(1 < r) by omega]

/-- C4 witness: the amended theorem applied at a concrete store. -/
theorem c4_partial_update_witness :
    GestureFile.set_parameters [("a", sdQ)] "a" (some 5) (some 0) none =
      (some (.assertionError "random_state should be above 1"),
       aupsert [("a", sdQ)] "a" { sdQ with n_components := 5 }) :=
  c4_partial_update [("a", sdQ)] "a" sdQ 5 0 none rfl (by norm_num) (by norm_num)

/-- C6: load is not all-or-nothing in the code.  On a v1 container whose
sensor s2 is missing the weights dataset of its component set, the v1 reader
catches the KeyError internally and returns the partially decoded
dictionary; read assigns that pair to the store and reports success, so the
caller sees True, sensor s1 partially decoded, and s2 present with no
models, instead of a corrupt-container failure that leaves the store
untouched. -/
theorem c6_partial_load_reported_ok :
    GestureFile.read corruptV1 (.dict []) =
      (none, .v1pair ⟨.vnum (-5), .vint 1, .vint 2⟩
        [(.n_components, []), (.random_state, []),
         (.label "s1", [rawQ]), (.label "s2", [])]) ∧
    (GData.v1pair ⟨.vnum (-5), .vint 1, .vint 2⟩
        [(.n_components, []), (.random_state, []),
         (.label "s1", [rawQ]), (.label "s2", [])]) ≠ .dict [] := by
  decide

/-- C7 counterexample: a file whose version dataset holds the integer 3
carries a tag that is not an exact key of the registry, yet read does not
fail with an unsupported-version error naming the tag: the .decode call
raises AttributeError first, so the reported error names nothing. -/
theorem c7_counterexample :
    GestureFile.read [(.version, .dset (.vint 3))] (.dict []) =
      (some .attributeErrorNoDecode, .dict []) ∧
    PyExn.attributeErrorNoDecode ≠ .valueErrorUnsupportedVersion "3" := by
  decide

/-- C7 amended: for every file whose version dataset decodes to a string tag
that is not an exact key of the registry, read fails with the
unsupported-version error naming the tag found, independently of all other
file content (the version field is dispatched on first), and the prior
in-memory store is left untouched; a version stamped as a non-string scalar
instead fails at the decode call with an error that names no tag. -/
theorem c7_unknown_tag (f : HFile) (cur : GData) (s : String)
    (hv : alookup f .version = some (.dset (.vstr s)))
    (hs : s ∉ version_reader_tags) :
    GestureFile.read f cur = (some (.valueErrorUnsupportedVersion s), cur) := by
  simp [GestureFile.read, hv, hs]

/-- C7 witness: the amended theorem applied at a concrete file with the
unknown string tag 9.9. -/
theorem c7_unknown_tag_witness :
    GestureFile.read [(.version, .dset (.vstr "9.9"))] (.dict []) =
      (some (.valueErrorUnsupportedVersion "9.9"), .dict []) :=
  c7_unknown_tag [(.version, .dset (.vstr "9.9"))] (.dict []) "9.9" rfl (by decide)

/-- C10: for a label absent from the in-memory store, get_parameters raises
KeyError out of the method, and set_parameters with a supplied valid
n_components raises KeyError at its assignment, leaving the store unchanged;
neither reports through a return value the way the other fallible
operations do. -/
theorem c10_missing_label_keyerror (store : DataDict ℚ) (lbl : String)
    (habsent : alookup store lbl = none) :
    GestureFile.get_parameters store lbl = .error (.keyErrorLabel lbl) ∧
    ∀ n : ℤ, 0 < n →
      GestureFile.set_parameters store lbl (some n) none none =
        (some (.keyErrorLabel lbl), store) := by
  refine ⟨by simp [GestureFile.get_parameters, habsent], ?_⟩
  intro n hn
  simp [GestureFile.set_parameters, habsent, hn]

/-- C5 counterexample: after writing one component set for sensor s and then
one more with override false, the claim would have the new sub-record
numbered at the current component-set count, that is model_1; instead the
group has no member model_1, because the start index len(group) also counts
the three parameter datasets, so the new sub-record is model_4. -/
theorem c5_counterexample :
    alookup C5group (.model 1) = none ∧ (alookup C5group (.model 4)).isSome = true := by
  decide

/-- C5 amended: writing the component sets of sd1 for a fresh sensor and then
those of sd2 to the same sensor with override false yields a sensor group
holding all the component-set sub-records of both writes, with the first
ones keeping their names, values and order; the new ones are numbered
starting at the total member count of the group, that is the prior
component-set count plus the three parameter datasets, not at the
component-set count alone. -/
theorem c5_append_numbering (s : String) (sd1 sd2 : SensorData ℚ) :
    (GestureFile.write [(s, sd1)] false GestureFile.create).1 = true ∧
    (GestureFile.write [(s, sd2)] false
        (GestureFile.write [(s, sd1)] false GestureFile.create).2).1 = true ∧
    alookup (GestureFile.write [(s, sd2)] false
        (GestureFile.write [(s, sd1)] false GestureFile.create).2).2 (.label s) =
      some (.grp (paramsOf sd2 ++ idxModels 0 sd1.models ++
        idxModels (3 + sd1.models.length) sd2.models)) := by
  have hadd1 := addModels_ok sd1.models (paramsOf sd1) 0
    (fun j _ => alookup_paramsOf_model sd1 j)
  have hw1 : GestureFile.write [(s, sd1)] false GestureFile.create =
      (true, [(.version, .dset (.vint GESTURE_VERSION)),
              (.label s, .grp (paramsOf sd1 ++ idxModels 0 sd1.models))]) := by
    simp [GestureFile.write, GestureFile.write_go, GestureFile.writeSensor,
      GestureFile.create, alookup, aupsert, upsertParams_nil, hadd1, Except.map]
  have hlen : (paramsOf sd1 ++ idxModels 0 sd1.models).length = 3 + sd1.models.length := by
    simp [paramsOf, idxModels_length]
    omega
  have h2 : ∀ j, 3 + sd1.models.length ≤ j →
      alookup (paramsOf sd2 ++ idxModels 0 sd1.models) (.model j) = none := by
    intro j hj
    rw [alookup_append, alookup_paramsOf_model]
    exact alookup_idxModels_ge sd1.models 0 j (by omega)
  have hadd2 := addModels_ok sd2.models (paramsOf sd2 ++ idxModels 0 sd1.models)
    (3 + sd1.models.length) h2
  have hup := upsertParams_params sd1 sd2 (idxModels 0 sd1.models)
  have hw2 : GestureFile.write [(s, sd2)] false
      [(.version, .dset (.vint GESTURE_VERSION)),
       (.label s, .grp (paramsOf sd1 ++ idxModels 0 sd1.models))] =
      (true, [(.version, .dset (.vint GESTURE_VERSION)),
              (.label s, .grp (paramsOf sd2 ++ idxModels 0 sd1.models ++
                idxModels (3 + sd1.models.length) sd2.models))]) := by
    simp [GestureFile.write, GestureFile.write_go, GestureFile.writeSensor,
      alookup, aupsert, hup, hlen, hadd2, Except.map]
  refine ⟨by simp [hw1], by simp [hw1, hw2], ?_⟩
  simp [hw1, hw2, alookup]

/-- C10 witness: the theorem applied to a store holding only sensor x, at
the absent label y. -/
theorem c10_missing_label_keyerror_witness :
    GestureFile.get_parameters [("x", sdQ)] "y" = .error (.keyErrorLabel "y") ∧
    GestureFile.set_parameters [("x", sdQ)] "y" (some 1) none none =
      (some (.keyErrorLabel "y"), [("x", sdQ)]) :=
  ⟨(c10_missing_label_keyerror [("x", sdQ)] "y" rfl).1,
   (c10_missing_label_keyerror [("x", sdQ)] "y" rfl).2 1 (by norm_num)⟩

--------------------------------------------------------------------------------
-- Evaluator lemmas
--------------------------------------------------------------------------------

theorem logsumexp_single (x : ℝ) : logsumexp [x] = x := by
  simp [logsumexp]

theorem pymax_single (x : ℝ) : pymax [x] = x := by
  simp [pymax]

theorem sll_gR (x : ℝ × ℝ) : sampleLogLik gR x = logGaussianProb gR 0 x := by
  simp [sampleLogLik, gR, show List.range 1 = [0] from rfl, logsumexp_single]

theorem lgp_origin : logGaussianProb gR 0 ((0 : ℝ), (0 : ℝ)) = -Real.log (2 * Real.pi) := by
  simp [logGaussianProb, gR]

theorem lgp_second : logGaussianProb gR 0 ((1 : ℝ), (0 : ℝ))
    = -Real.log (2 * Real.pi) - 1/2 := by
  simp [logGaussianProb, gR]
  ring

theorem score_accel :
    gmmScore gR [((0 : ℝ), (0 : ℝ)), ((1 : ℝ), (0 : ℝ))]
      = -Real.log (2 * Real.pi) - 1/4 := by
  simp only [gmmScore, List.map_cons, List.map_nil, List.sum_cons, List.sum_nil,
    List.length_cons, List.length_nil, sll_gR, lgp_origin, lgp_second]
  push_cast
  ring

theorem log_two_pi_lt : Real.log (2 * Real.pi) < 5/2 := by
  have h1 : (2 : ℝ) * Real.pi < 8 := by nlinarith [Real.pi_lt_d2]
  have h2 : Real.log (2 * Real.pi) < Real.log 8 := Real.log_lt_log (by positivity) h1
  have h3 : Real.log 8 = 3 * Real.log 2 := by
    rw [show (8 : ℝ) = 2 ^ 3 by norm_num, Real.log_pow]
    push_cast
    ring
  nlinarith [Real.log_two_lt_d9]

theorem status_accel : (-Real.log (2 * Real.pi) - 1/4 : ℝ) > -5 := by
  nlinarith [log_two_pi_lt]

theorem is_gesture_accel_eval :
    GestureFile.is_gesture storeAccel [0, 1] [("accel", [0, 0])] =
      (true, [("accel", ⟨-Real.log (2 * Real.pi) - 1/4, true⟩)]) := by
  simp [GestureFile.is_gesture, storeAccel, igo, alookup, sdR, pymax_single,
    score_accel, -Prod.mk_zero_zero]
  linarith [log_two_pi_lt]

theorem igo_mismatch (store : DataDict ℝ) (ts : List ℝ) (s : String)
    (v : List ℝ) (rest : List (String × List ℝ)) (hv : v.length ≠ ts.length) :
    ∀ (pre : List (String × List ℝ)) (acc : List (String × GestureMatch)),
      (∀ p ∈ pre, (alookup store p.1).isSome ∧ p.2.length = ts.length) →
      (igo store ts (pre ++ (s, v) :: rest) acc).1 = false ∧
      (igo store ts (pre ++ (s, v) :: rest) acc).2.map Prod.fst =
        acc.map Prod.fst ++ pre.map Prod.fst := by
  intro pre
  induction pre with
  | nil =>
    intro acc _
    simp [igo, Ne.symm hv]
  | cons p pre ih =>
    obtain ⟨lbl, vals⟩ := p
    intro acc hpre
    obtain ⟨hsome, hlen⟩ := hpre (lbl, vals) (List.mem_cons_self (lbl, vals) pre)
    obtain ⟨sd, hsd⟩ := Option.isSome_iff_exists.mp hsome
    simp only [List.cons_append, igo, hsd]
    rw [if_neg (by simp only [] at hlen ⊢; omega)]
    have := ih (acc ++ [(lbl, ⟨pymax (sd.models.map fun m => gmmScore m (ts.zip vals)),
      decide (pymax (sd.models.map fun m => gmmScore m (ts.zip vals)) > sd.threshold)⟩)])
      (fun q hq => hpre q (List.mem_cons_of_mem (lbl, vals) hq))
    simpa using this

--------------------------------------------------------------------------------
-- Evaluator claim theorems
--------------------------------------------------------------------------------

/-- C2 counterexample: a length mismatch does not return an empty per-sensor
map.  With a two-sensor store and readings listing sensor a (well formed)
before sensor b (mismatched length), is_gesture returns overall False but
the result map still carries the entry already computed for a, refuting the
claimed empty map. -/
theorem c2_counterexample :
    (GestureFile.is_gesture storeAB [0, 1] [("a", [0, 0]), ("b", [0])]).1 = false ∧
    (GestureFile.is_gesture storeAB [0, 1] [("a", [0, 0]), ("b", [0])]).2 ≠ [] := by
  have hyp : ∀ p ∈ [(("a" : String), ([0, 0] : List ℝ))],
      (alookup storeAB p.1).isSome ∧ p.2.length = ([0, 1] : List ℝ).length := by
    intro p hp
    simp only [List.mem_singleton] at hp
    subst hp
    exact ⟨rfl, rfl⟩
  have h := igo_mismatch storeAB [0, 1] "b" [0] [] (by simp) [("a", [0, 0])] [] hyp
  simp only [List.cons_append, List.nil_append, List.map_cons, List.map_nil] at h
  constructor
  · have h1 := h.1
    simpa [GestureFile.is_gesture, storeAB] using h1
  · intro hnil
    have h2 := h.2
    have h3 : (GestureFile.is_gesture storeAB [0, 1]
        [("a", [0, 0]), ("b", [0])]).2.map Prod.fst = ["a"] := by
      simpa [GestureFile.is_gesture, storeAB] using h2
    rw [hnil] at h3
    simp at h3

/-- C2 amended: a length mismatch aborts the evaluation with overall status
False, but the per-sensor result map holds exactly the sensors evaluated
before the first mismatching key, in readings order; it is empty only when
the mismatch occurs at the first sensor. -/
theorem c2_mismatch_abort (store : DataDict ℝ) (ts : List ℝ)
    (pre : List (String × List ℝ)) (s : String) (v : List ℝ)
    (rest : List (String × List ℝ))
    (hstore : store ≠ [])
    (hpre : ∀ p ∈ pre,
      (∃ sd, alookup store p.1 = some sd ∧ sd.models ≠ []) ∧ p.2.length = ts.length)
    (hv : v.length ≠ ts.length) :
    (GestureFile.is_gesture store ts (pre ++ (s, v) :: rest)).1 = false ∧
    (GestureFile.is_gesture store ts (pre ++ (s, v) :: rest)).2.map Prod.fst =
      pre.map Prod.fst := by
  have h := igo_mismatch store ts s v rest hv pre []
    (fun p hp => by
      obtain ⟨⟨sd, hsd, _⟩, hl⟩ := hpre p hp
      exact ⟨by simp [hsd], hl⟩)
  cases store with
  | nil => exact absurd rfl hstore
  | cons a l => simpa [GestureFile.is_gesture] using h

/-- C2 witness: the amended theorem applied to a concrete two-sensor store
with the mismatching sensor listed second; the returned map names exactly
the first sensor. -/
theorem c2_mismatch_abort_witness :
    (GestureFile.is_gesture storeAB [0, 1] [("a", [0, 0]), ("b", [0])]).1 = false ∧
    (GestureFile.is_gesture storeAB [0, 1] [("a", [0, 0]), ("b", [0])]).2.map Prod.fst =
      ["a"] := by
  have h := c2_mismatch_abort storeAB [0, 1] [("a", [0, 0])] "b" [0] []
    (by simp [storeAB])
    (by
      intro p hp
      simp only [List.mem_singleton] at hp
      subst hp
      exact ⟨⟨sdR, rfl, by simp [sdR]⟩, rfl⟩)
    (by simp)
  simpa using h

/-- C8 counterexample: in the concrete scenario the spec expects the score
-0.5 times 2 times log(2 pi); the sample matrix is [(0,0), (1,0)] (the
second timestamp is 1, so the second sample is not at the mean), and the
computed score is -log(2 pi) - 1/4, which differs from the claimed value. -/
theorem c8_counterexample :
    (GestureFile.is_gesture storeAccel [0, 1] [("accel", [0, 0])]).2 =
      [("accel", ⟨-Real.log (2 * Real.pi) - 1/4, true⟩)] ∧
    (-Real.log (2 * Real.pi) - 1/4 : ℝ) ≠ -(1/2) * 2 * Real.log (2 * Real.pi) := by
  refine ⟨by rw [is_gesture_accel_eval], ?_⟩
  intro h
  ring_nf at h
  linarith

/-- C8 amended: in the concrete scenario (sensor accel, one component set,
identity precision Cholesky, mean at the origin, threshold -5, timestamps
[0, 1], readings [0, 0]) the score is -log(2 pi) - 1/4, roughly -2.0879,
the per-sensor status is True, and the overall status is True. -/
theorem c8_scenario :
    GestureFile.is_gesture storeAccel [0, 1] [("accel", [0, 0])] =
      (true, [("accel", ⟨-Real.log (2 * Real.pi) - 1/4, true⟩)]) :=
  is_gesture_accel_eval

/-- C9: with a non-empty store and an empty readings dictionary, is_gesture
evaluates no sensor and returns overall status True with an empty per-sensor
map: an empty batch of readings is accepted. -/
theorem c9_empty_readings (store : DataDict ℝ) (ts : List ℝ) (h : store ≠ []) :
    GestureFile.is_gesture store ts [] = (true, []) := by
  cases store with
  | nil => exact absurd rfl h
  | cons a l => simp [GestureFile.is_gesture, igo]

/-- C9 witness: the theorem applied to the concrete one-sensor store. -/
theorem c9_empty_readings_witness :
    GestureFile.is_gesture storeAccel [] [] = (true, []) :=
  c9_empty_readings storeAccel [] (by simp [storeAccel])

end Redwren
